import Mathlib

/-
Verification of the generation-invoker script (src/script.py) against its
natural-language specification.  The script builds a fixed configuration,
acquires a text-generation capability from an external framework, issues one
generation request, and prints the first returned record's text.  The external
framework is opaque: it is represented by an environment supplying a `load`
operation and, inside the acquired capability, a generation oracle and a
tokenizer.  The script's own glue (the constants, the single call sequence,
and the report step) is embedded directly from the source.
-/

namespace Sparkle

/-- Error taxonomy of the workflow (spec section 7): model loading, device
selection, request validation, and empty-result failures. -/
inductive Err where
  | ModelLoadError
  | DeviceError
  | InvalidParameterError
  | EmptyResultError
  deriving DecidableEq

/-- Configuration handed to `pipeline(...)` in src/script.py lines 4-8:
a task identifier, a model identifier, and an integer device selector. -/
structure GenerationConfig where
  task : String
  model : String
  device : Int
  deriving DecidableEq

/-- The keyword arguments of the generation call in src/script.py lines 11-19:
prompt, sampling flag, length bounds, temperature, number of sequences, and
the padding token identifier. -/
structure GenerationRequest where
  prompt : String
  do_sample : Bool
  min_length : Nat
  max_length : Nat
  temperature : ℚ
  num_return_sequences : Int
  pad_token_id : Nat
  deriving DecidableEq

/-- One generated-sequence record: the framework returns dictionaries whose
`generated_text` field the script reads on line 21. -/
structure GeneratedRecord where
  generated_text : String
  deriving DecidableEq

/-- A generation result is an ordered sequence of records. -/
abbrev GenerationResult := List GeneratedRecord

/-- The tokenizer carried by the capability; the script reads its
end-of-sequence token identifier on line 18. -/
structure Tokenizer where
  eos_token_id : Nat
  deriving DecidableEq

/-- The capability returned by a successful `pipeline(...)` call: it owns a
tokenizer and answers generation requests.  The oracle `gen` is the opaque
external inference engine. -/
structure Capability where
  tokenizer : Tokenizer
  gen : GenerationRequest → GenerationResult

/-- The external world the process runs in: the model-hub / device side of
`pipeline(...)`, which either yields a capability or fails. -/
structure Env where
  load : GenerationConfig → Except Err Capability

/-- src/script.py lines 4-8: the configuration is built from embedded
constants only. -/
def generatorConfig : GenerationConfig :=
  { task := "text-generation"
  , model := "EleutherAI/gpt-neo-2.7B"
  , device := 0 }

/-- src/script.py lines 11-19: the single request the script constructs.
Every field is an embedded constant except `pad_token_id`, which the script
takes from the loaded capability's tokenizer (line 18). -/
def mkRequest (padTokenId : Nat) : GenerationRequest :=
  { prompt := "EleutherAI has"
  , do_sample := true
  , min_length := 50
  , max_length := 100
  , temperature := (7 : ℚ) / 10
  , num_return_sequences := 1
  , pad_token_id := padTokenId }

/-- Modelled from the spec: the external framework's request validation
(spec section 4.1, Generate).  A request is valid when the minimum length
does not exceed the maximum, the temperature lies in (0, 1], and the
sequence count is positive.  The validation itself lives inside the external
framework, outside src/. -/
def validRequest (r : GenerationRequest) : Bool :=
  decide (r.min_length ≤ r.max_length)
    && decide ((0 : ℚ) < r.temperature)
    && decide (r.temperature ≤ 1)
    && decide ((0 : Int) < r.num_return_sequences)

/-- Modelled from the spec: the Generate operation (spec section 4.1).
It validates the request and, when valid, defers to the capability's opaque
generation oracle; an invalid request fails with `InvalidParameterError`. -/
def generate (oracle : GenerationRequest → GenerationResult)
    (r : GenerationRequest) : Except Err GenerationResult :=
  if validRequest r then .ok (oracle r) else .error .InvalidParameterError

/-- src/script.py line 21: `print(response[0]['generated_text'])`.  Indexing
an empty result fails (the spec names this `EmptyResultError`); otherwise the
first record's text is the line to print. -/
def report (res : GenerationResult) : Except Err String :=
  match res with
  | [] => .error .EmptyResultError
  | r0 :: _ => .ok r0.generated_text

/-- Observable events of one run: the `pipeline(...)` call, the generation
call, and a line written to standard output. -/
inductive Event where
  | initCall (config : GenerationConfig)
  | generateCall (req : GenerationRequest)
  | printLine (line : String)
  deriving DecidableEq

/-- Trace of the script from the generation call onward (src/script.py lines
11-21): the generation call happens, and only if both it and the result
access succeed is a line printed. -/
def stageTrace (oracle : GenerationRequest → GenerationResult)
    (r : GenerationRequest) : List Event :=
  Event.generateCall r ::
    match generate oracle r with
    | .error _ => []
    | .ok res =>
      match report res with
      | .error _ => []
      | .ok s => [Event.printLine s]

/-- Trace of the whole script (src/script.py lines 1-21): `pipeline(...)` is
called once; if it yields a capability, the fixed request is built with the
tokenizer's end-of-sequence token identifier and the generation stage runs. -/
def runTrace (env : Env) : List Event :=
  Event.initCall generatorConfig ::
    match env.load generatorConfig with
    | .error _ => []
    | .ok cap => stageTrace cap.gen (mkRequest cap.tokenizer.eos_token_id)

/-- The value the script computes: the line it prints on success, or the
error of the first failing stage.  An unhandled error aborts the process. -/
def run (env : Env) : Except Err String :=
  match env.load generatorConfig with
  | .error e => .error e
  | .ok cap =>
    match generate cap.gen (mkRequest cap.tokenizer.eos_token_id) with
    | .error e => .error e
    | .ok res => report res

/-- The process as invoked by the operating system.  src/script.py never
mentions `sys.argv` or `os.environ`, so the argument vector and environment
variables do not occur in the body at all. -/
def runProcess (args : List String) (envVars : List (String × String))
    (env : Env) : List Event :=
  runTrace env

/-- Lines written to standard output in a trace. -/
def printedLines (tr : List Event) : List String :=
  tr.filterMap fun e =>
    match e with
    | .printLine s => some s
    | _ => none

/-- Number of `pipeline(...)` invocations in a trace. -/
def initCount (tr : List Event) : Nat :=
  tr.countP fun e =>
    match e with
    | .initCall _ => true
    | _ => false

/-- Number of generation invocations in a trace. -/
def genCount (tr : List Event) : Nat :=
  tr.countP fun e =>
    match e with
    | .generateCall _ => true
    | _ => false

/-- The script's fixed request passes the external framework's validation,
whatever padding token identifier the tokenizer supplies. -/
lemma validRequest_mkRequest (p : Nat) : validRequest (mkRequest p) = true := by
  simp [validRequest, mkRequest]
  norm_num

/-- Every generation stage opens with the generation call. -/
lemma stageTrace_cons (oracle : GenerationRequest → GenerationResult)
    (r : GenerationRequest) :
    ∃ tail, stageTrace oracle r = Event.generateCall r :: tail :=
  ⟨_, rfl⟩

/-- Trace of a run whose load fails. -/
lemma runTrace_load_error (env : Env) (e : Err)
    (h : env.load generatorConfig = .error e) :
    runTrace env = [Event.initCall generatorConfig] := by
  simp [runTrace, h]

/-- Trace of a run whose generation call fails. -/
lemma runTrace_gen_error (env : Env) (cap : Capability) (e : Err)
    (h : env.load generatorConfig = .ok cap)
    (hg : generate cap.gen (mkRequest cap.tokenizer.eos_token_id) = .error e) :
    runTrace env = [Event.initCall generatorConfig,
      Event.generateCall (mkRequest cap.tokenizer.eos_token_id)] := by
  simp [runTrace, h, stageTrace, hg]

/-- Trace of a run whose result access fails. -/
lemma runTrace_report_error (env : Env) (cap : Capability)
    (res : GenerationResult) (e : Err)
    (h : env.load generatorConfig = .ok cap)
    (hg : generate cap.gen (mkRequest cap.tokenizer.eos_token_id) = .ok res)
    (hr : report res = .error e) :
    runTrace env = [Event.initCall generatorConfig,
      Event.generateCall (mkRequest cap.tokenizer.eos_token_id)] := by
  simp [runTrace, h, stageTrace, hg, hr]

/-- Trace of a fully successful run. -/
lemma runTrace_ok (env : Env) (cap : Capability)
    (res : GenerationResult) (s : String)
    (h : env.load generatorConfig = .ok cap)
    (hg : generate cap.gen (mkRequest cap.tokenizer.eos_token_id) = .ok res)
    (hr : report res = .ok s) :
    runTrace env = [Event.initCall generatorConfig,
      Event.generateCall (mkRequest cap.tokenizer.eos_token_id),
      Event.printLine s] := by
  simp [runTrace, h, stageTrace, hg, hr]

/-- Run value when load fails. -/
lemma run_load_error (env : Env) (e : Err)
    (h : env.load generatorConfig = .error e) :
    run env = .error e := by
  simp [run, h]

/-- Run value when the generation call fails. -/
lemma run_gen_error (env : Env) (cap : Capability) (e : Err)
    (h : env.load generatorConfig = .ok cap)
    (hg : generate cap.gen (mkRequest cap.tokenizer.eos_token_id) = .error e) :
    run env = .error e := by
  simp [run, h, hg]

/-- Run value when generation succeeds: it is the report of the result. -/
lemma run_report (env : Env) (cap : Capability) (res : GenerationResult)
    (h : env.load generatorConfig = .ok cap)
    (hg : generate cap.gen (mkRequest cap.tokenizer.eos_token_id) = .ok res) :
    run env = report res := by
  simp [run, h, hg]

/-- A capability whose oracle answers every request with one record whose
text is exactly the prompt; used to instantiate the theorems below. -/
def capOk : Capability :=
  { tokenizer := { eos_token_id := 50256 }
  , gen := fun r => [{ generated_text := r.prompt }] }

/-- An environment whose load always succeeds with `capOk`. -/
def envOk : Env := { load := fun _ => .ok capOk }

/-- An environment whose load always fails. -/
def envFail : Env := { load := fun _ => .error .ModelLoadError }

/-- An oracle returning no records; used to instantiate the theorems below. -/
def nullOracle : GenerationRequest → GenerationResult := fun _ => []

/-- The script's request with the length bounds inverted. -/
def badReq : GenerationRequest := { mkRequest 0 with min_length := 200 }

/-- C2: the program reads no command-line arguments or environment variables,
and the configuration and request are built from the embedded constants:
prompt "EleutherAI has", the 2.7-billion-parameter model identifier, device
index 0, sampling enabled, minimum length 50, maximum length 100,
temperature 0.7, one returned sequence. -/
theorem request_built_from_embedded_constants :
    (∀ args envVars env, runProcess args envVars env = runTrace env) ∧
    generatorConfig.model = "EleutherAI/gpt-neo-2.7B" ∧
    generatorConfig.device = 0 ∧
    ∀ p, (mkRequest p).prompt = "EleutherAI has" ∧
      (mkRequest p).do_sample = true ∧
      (mkRequest p).min_length = 50 ∧
      (mkRequest p).max_length = 100 ∧
      (mkRequest p).temperature = (7 : ℚ) / 10 ∧
      (mkRequest p).num_return_sequences = 1 := by
  refine ⟨fun args envVars env => rfl, rfl, rfl, fun p => ?_⟩
  exact ⟨rfl, rfl, rfl, rfl, rfl, rfl⟩

/-- C3: Report selects the first record of the result and outputs its text
field; no other record influences the outcome. -/
theorem report_reads_only_first_record (r0 : GeneratedRecord)
    (rest rest' : List GeneratedRecord) :
    report (r0 :: rest) = .ok r0.generated_text ∧
    report (r0 :: rest) = report (r0 :: rest') :=
  ⟨rfl, rfl⟩

/-- C3 instantiation at a concrete record and tails. -/
theorem report_reads_only_first_record_w :
    report [{ generated_text := "a" }] = .ok "a" ∧
    report [{ generated_text := "a" }] =
      report [{ generated_text := "a" }, { generated_text := "b" }] :=
  report_reads_only_first_record { generated_text := "a" } []
    [{ generated_text := "b" }]

/-- C7: noninterference — with the external capability's behavior held
fixed, changing the argument vector or the environment variables leaves the
observable trace unchanged, since the script reads neither. -/
theorem noninterference_process_inputs (args1 args2 : List String)
    (envVars1 envVars2 : List (String × String)) (env : Env) :
    runProcess args1 envVars1 env = runProcess args2 envVars2 env :=
  rfl

/-- C7 instantiation at concrete, distinct argument vectors and environment
variables. -/
theorem noninterference_process_inputs_w :
    runProcess ["--foo"] [("HOME", "/a")] envOk =
      runProcess [] [("HOME", "/b"), ("X", "1")] envOk :=
  noninterference_process_inputs ["--foo"] [] [("HOME", "/a")]
    [("HOME", "/b"), ("X", "1")] envOk

/-- C10: the single request the script constructs satisfies all of
Generate's validity preconditions, so the invalid-parameter branch is
unreachable: Generate always answers it with the oracle's result. -/
theorem script_request_always_valid (p : Nat)
    (oracle : GenerationRequest → GenerationResult) :
    validRequest (mkRequest p) = true ∧
    generate oracle (mkRequest p) = .ok (oracle (mkRequest p)) := by
  refine ⟨validRequest_mkRequest p, ?_⟩
  simp [generate, validRequest_mkRequest p]

/-- C10 instantiation at a concrete padding token and oracle. -/
theorem script_request_always_valid_w :
    validRequest (mkRequest 0) = true ∧
    generate nullOracle (mkRequest 0) = .ok (nullOracle (mkRequest 0)) :=
  script_request_always_valid 0 nullOracle

/-- C5: Report fails with `EmptyResultError` exactly when the result
sequence is empty, and no other error can arise from Report. -/
theorem report_error_iff_empty (res : GenerationResult) :
    (report res = .error Err.EmptyResultError ↔ res = []) ∧
    (∀ e, report res = .error e → e = Err.EmptyResultError) := by
  cases res with
  | nil => simp [report]
  | cons r0 rest => simp [report]

/-- C5 instantiation: the empty result does fail with `EmptyResultError`,
and that is the error it fails with. -/
theorem report_error_iff_empty_w :
    report ([] : GenerationResult) = .error Err.EmptyResultError ∧
    Err.EmptyResultError = Err.EmptyResultError :=
  ⟨(report_error_iff_empty []).1.mpr rfl,
   (report_error_iff_empty []).2 Err.EmptyResultError rfl⟩

/-- C6: Generate fails with `InvalidParameterError` whenever the minimum
length exceeds the maximum, the temperature lies outside (0, 1], or the
sequence count is non-positive; and when the minimum length exceeds the
maximum, the generation stage prints nothing. -/
theorem invalid_request_fails_generate :
    (∀ oracle r, (r.max_length < r.min_length ∨ r.temperature ≤ 0 ∨
        1 < r.temperature ∨ r.num_return_sequences ≤ 0) →
      generate oracle r = .error Err.InvalidParameterError) ∧
    (∀ oracle r, r.max_length < r.min_length →
      printedLines (stageTrace oracle r) = []) := by
  have key : ∀ (oracle : GenerationRequest → GenerationResult)
      (r : GenerationRequest),
      (r.max_length < r.min_length ∨ r.temperature ≤ 0 ∨
        1 < r.temperature ∨ r.num_return_sequences ≤ 0) →
      generate oracle r = .error Err.InvalidParameterError := by
    intro oracle r h
    have hv : ¬ validRequest r = true := by
      simp only [validRequest, Bool.and_eq_true, decide_eq_true_eq]
      rintro ⟨⟨⟨h1, h2⟩, h3⟩, h4⟩
      rcases h with h | h | h | h
      · omega
      · linarith
      · linarith
      · omega
    simp [generate, hv]
  refine ⟨key, fun oracle r h => ?_⟩
  have := key oracle r (Or.inl h)
  simp [stageTrace, this, printedLines]

/-- C6 instantiation: the script's request with minimum length raised to 200
fails, and the generation stage prints nothing on it. -/
theorem invalid_request_fails_generate_w :
    generate nullOracle badReq = .error Err.InvalidParameterError ∧
    printedLines (stageTrace nullOracle badReq) = [] :=
  ⟨invalid_request_fails_generate.1 nullOracle badReq (Or.inl (by decide)),
   invalid_request_fails_generate.2 nullOracle badReq (by decide)⟩

/-- C8: the control flow is one linear sequence — the pipeline is acquired
exactly once, generation is invoked at most once and only after
initialization, and printing happens at most once and only after
generation; no trace shows a retry, branch, or loop. -/
theorem linear_call_sequence (env : Env) :
    initCount (runTrace env) = 1 ∧ genCount (runTrace env) ≤ 1 ∧
    (runTrace env = [Event.initCall generatorConfig] ∨
     (∃ r, runTrace env = [Event.initCall generatorConfig,
        Event.generateCall r]) ∨
     (∃ r s, runTrace env = [Event.initCall generatorConfig,
        Event.generateCall r, Event.printLine s])) := by
  cases h : env.load generatorConfig with
  | error e =>
    rw [runTrace_load_error env e h]
    exact ⟨rfl, Nat.zero_le 1, Or.inl rfl⟩
  | ok cap =>
    cases hg : generate cap.gen (mkRequest cap.tokenizer.eos_token_id) with
    | error e =>
      rw [runTrace_gen_error env cap e h hg]
      exact ⟨rfl, Nat.le_refl 1, Or.inr (Or.inl ⟨_, rfl⟩)⟩
    | ok res =>
      cases hr : report res with
      | error e =>
        rw [runTrace_report_error env cap res e h hg hr]
        exact ⟨rfl, Nat.le_refl 1, Or.inr (Or.inl ⟨_, rfl⟩)⟩
      | ok s =>
        rw [runTrace_ok env cap res s h hg hr]
        exact ⟨rfl, Nat.le_refl 1, Or.inr (Or.inr ⟨_, _, rfl⟩)⟩

/-- C8 instantiation at the always-failing environment. -/
theorem linear_call_sequence_w :
    initCount (runTrace envFail) = 1 ∧ genCount (runTrace envFail) ≤ 1 ∧
    (runTrace envFail = [Event.initCall generatorConfig] ∨
     (∃ r, runTrace envFail = [Event.initCall generatorConfig,
        Event.generateCall r]) ∨
     (∃ r s, runTrace envFail = [Event.initCall generatorConfig,
        Event.generateCall r, Event.printLine s])) :=
  linear_call_sequence envFail

/-- C4: no failure is recovered locally — if any stage fails before Report,
the run prints nothing; if everything succeeds, exactly the one reported
line is printed. -/
theorem failure_before_report_prints_nothing (env : Env) :
    (∀ e, run env = .error e → printedLines (runTrace env) = []) ∧
    (∀ s, run env = .ok s → printedLines (runTrace env) = [s]) := by
  cases h : env.load generatorConfig with
  | error e0 =>
    refine ⟨fun e he => ?_, fun s hs => ?_⟩
    · rw [runTrace_load_error env e0 h]; rfl
    · rw [run_load_error env e0 h] at hs; cases hs
  | ok cap =>
    cases hg : generate cap.gen (mkRequest cap.tokenizer.eos_token_id) with
    | error e0 =>
      refine ⟨fun e he => ?_, fun s hs => ?_⟩
      · rw [runTrace_gen_error env cap e0 h hg]; rfl
      · rw [run_gen_error env cap e0 h hg] at hs; cases hs
    | ok res =>
      have hrun := run_report env cap res h hg
      cases hr : report res with
      | error e0 =>
        refine ⟨fun e he => ?_, fun s hs => ?_⟩
        · rw [runTrace_report_error env cap res e0 h hg hr]; rfl
        · rw [hrun, hr] at hs; cases hs
      | ok s0 =>
        refine ⟨fun e he => ?_, fun s hs => ?_⟩
        · rw [hrun, hr] at he; cases he
        · rw [hrun, hr] at hs
          injection hs with hss
          subst hss
          rw [runTrace_ok env cap res s0 h hg hr]
          rfl

/-- C4 instantiation: a run whose load fails prints nothing, and a fully
successful run prints exactly its reported line. -/
theorem failure_before_report_prints_nothing_w :
    printedLines (runTrace envFail) = [] ∧
    printedLines (runTrace envOk) = ["EleutherAI has"] :=
  ⟨(failure_before_report_prints_nothing envFail).1 Err.ModelLoadError rfl,
   (failure_before_report_prints_nothing envOk).2 "EleutherAI has" (by
     have hg : generate capOk.gen (mkRequest capOk.tokenizer.eos_token_id) =
         .ok (capOk.gen (mkRequest capOk.tokenizer.eos_token_id)) := by
       simp [generate, validRequest_mkRequest]
     rw [run_report envOk capOk _ rfl hg]
     rfl)⟩

/-- C9: the padding token identifier of the request the script sends equals
the end-of-sequence token identifier of the loaded capability's tokenizer,
and the request appearing in the trace is exactly that request. -/
theorem pad_token_from_tokenizer (env : Env) (cap : Capability)
    (hload : env.load generatorConfig = .ok cap) :
    (mkRequest cap.tokenizer.eos_token_id).pad_token_id =
      cap.tokenizer.eos_token_id ∧
    ∃ tail, runTrace env = Event.initCall generatorConfig ::
      Event.generateCall (mkRequest cap.tokenizer.eos_token_id) :: tail := by
  refine ⟨rfl, ?_⟩
  obtain ⟨tail, ht⟩ :=
    stageTrace_cons cap.gen (mkRequest cap.tokenizer.eos_token_id)
  exact ⟨tail, by simp [runTrace, hload, ht]⟩

/-- C9 instantiation at the always-succeeding environment. -/
theorem pad_token_from_tokenizer_w :
    (mkRequest capOk.tokenizer.eos_token_id).pad_token_id =
      capOk.tokenizer.eos_token_id ∧
    ∃ tail, runTrace envOk = Event.initCall generatorConfig ::
      Event.generateCall (mkRequest capOk.tokenizer.eos_token_id) :: tail :=
  pad_token_from_tokenizer envOk capOk rfl

/-- C1: in the fixed run, whenever loading succeeds and the capability obeys
the spec's result invariant — record count equals the requested count and
every text begins with the prompt — the process prints exactly one line
beginning with "EleutherAI has" and nothing else. -/
theorem fixed_run_prints_one_line (env : Env) (cap : Capability)
    (hload : env.load generatorConfig = .ok cap)
    (hcount : (cap.gen (mkRequest cap.tokenizer.eos_token_id)).length =
      (mkRequest cap.tokenizer.eos_token_id).num_return_sequences.toNat)
    (hpre : ∀ r0 ∈ cap.gen (mkRequest cap.tokenizer.eos_token_id),
      ∃ rest, r0.generated_text =
        (mkRequest cap.tokenizer.eos_token_id).prompt ++ rest) :
    ∃ s rest, printedLines (runTrace env) = [s] ∧
      s = "EleutherAI has" ++ rest := by
  have h1 : (cap.gen (mkRequest cap.tokenizer.eos_token_id)).length = 1 := by
    simpa [mkRequest] using hcount
  obtain ⟨r0, hr0⟩ := List.length_eq_one.mp h1
  obtain ⟨rest, hrest⟩ := hpre r0 (by simp [hr0])
  refine ⟨r0.generated_text, rest, ?_, ?_⟩
  · have hg : generate cap.gen (mkRequest cap.tokenizer.eos_token_id) =
        .ok [r0] := by
      simp [generate, validRequest_mkRequest, hr0]
    rw [runTrace_ok env cap [r0] r0.generated_text hload hg rfl]
    rfl
  · simpa [mkRequest] using hrest

/-- C1 instantiation: a capability answering with one prompt-prefixed record
makes the run print exactly that one line. -/
theorem fixed_run_prints_one_line_w :
    ∃ s rest, printedLines (runTrace envOk) = [s] ∧
      s = "EleutherAI has" ++ rest :=
  fixed_run_prints_one_line envOk capOk rfl rfl
    (by
      intro r0 hr0
      simp [capOk] at hr0
      subst hr0
      exact ⟨"", by simp [mkRequest]⟩)

end Sparkle
